import Mathlib

/-!
Verification of the `anchor.py` tool-calling orchestration loop.

This file shallowly embeds the data model and operations of `anchor.py`
(the Anchor GCloud deploy agent): the side-effecting tool set
(`list_directory`, `read_file`, `write_file`, `run_command`, `ask_user`,
`push_secrets`), the tool dispatcher `execute_tool`, the rate-limit retry
wrapper, and the agentic loop `run_agent`.

Modelling conventions:
- All interaction with the outside world (filesystem, subprocesses, the
  model provider, terminal input, JSON parsing by `json.loads`) goes
  through an explicit environment `Env` of oracle functions.  Operations
  that can raise OS-level exceptions in Python are `Except`-valued; the
  placement of `try`/`except` blocks in the source is mirrored exactly,
  so an oracle failure is converted to a textual result precisely where
  the source catches it and propagates as a `PyErr` where it does not.
- Python strings are Lean `String`s; Python slicing and `in` act on
  characters, mirrored by `pySlice` and `pyIn`.
- The turn budget (`MAX_TURNS = 80` in the source) is a parameter of the
  embedded loop so that properties quantifying over budgets can be stated;
  the source value is recorded as `MAX_TURNS`.
-/

namespace Anchor

/-! ## Python string primitives -/

/-- Characters stripped by Python `str.strip()` with no argument. -/
def pyWs (c : Char) : Bool := c = ' ' || c = '\t' || c = '\n' || c = '\r' || c = '\x0b' || c = '\x0c'

/-- Python `s.strip()`: drop whitespace from both ends. -/
def pyStrip (s : String) : String :=
  ⟨((s.data.dropWhile pyWs).reverse.dropWhile pyWs).reverse⟩

/-- Python `s.strip(chars)`: drop any of the given characters from both ends. -/
def pyStripChars (s : String) (cs : List Char) : String :=
  ⟨((s.data.dropWhile (cs.contains ·)).reverse.dropWhile (cs.contains ·)).reverse⟩

/-- Prefix test on character lists (helper for the substring test). -/
def listIsPrefix : List Char → List Char → Bool
  | [], _ => true
  | _ :: _, [] => false
  | a :: as, b :: bs => a = b && listIsPrefix as bs

/-- Infix test on character lists (helper for the substring test). -/
def listInfix (needle : List Char) : List Char → Bool
  | [] => listIsPrefix needle []
  | b :: bs => listIsPrefix needle (b :: bs) || listInfix needle bs

/-- Python `needle in hay` on strings: substring containment. -/
def pyIn (needle hay : String) : Bool := listInfix needle.data hay.data

/-- `s.startswith(pre)` (structural, so that terms evaluate by reduction). -/
def strStartsWith (s pre : String) : Bool := listIsPrefix pre.data s.data

/-- Split a character list at every occurrence of `c` (Python `str.split`
with a one-character separator). -/
def splitChar (c : Char) : List Char → List (List Char)
  | [] => [[]]
  | a :: rest =>
    match splitChar c rest with
    | [] => [[]]
    | g :: gs => if a = c then [] :: g :: gs else (a :: g) :: gs

/-- Python `s[:n]`: the first `n` characters. -/
def pySlice (s : String) (n : Nat) : String := ⟨s.data.take n⟩

/-- Python `str.splitlines()` restricted to `\n` line terminators. -/
def pySplitlines (s : String) : List String :=
  if s = "" then []
  else if s.data.getLast? = some '\n' then
    (((splitChar '\n' s.data).map (fun l => (⟨l⟩ : String))).dropLast)
  else (splitChar '\n' s.data).map (fun l => (⟨l⟩ : String))

/-- Python `s.partition(c)` given that only the first two components are used:
returns the text before the first occurrence of `c` and the text after it
(both empty-after if `c` is absent, as in `str.partition`). -/
def pyPartition (s : String) (c : Char) : String × String :=
  (⟨s.data.takeWhile (· ≠ c)⟩, ⟨(s.data.dropWhile (· ≠ c)).tailD []⟩)

/-- Group the decimal digits of `n` in threes, as Python `f-string` `{n:,}`. -/
def chunk3 : List Char → List (List Char)
  | a :: b :: c :: rest => [a, b, c] :: chunk3 rest
  | [] => []
  | l => [l]

/-- Python `f"{n:,}"`: decimal with thousands separators. -/
def commaFmt (n : Nat) : String :=
  ⟨List.intercalate [','] (((chunk3 (toString n).data.reverse).map List.reverse).reverse)⟩

/-- The double-quote character (stripped from secret values). -/
def dquote : Char := Char.ofNat 34

/-- The single-quote character (stripped from secret values). -/
def squote : Char := Char.ofNat 39

/-- The path components `pathlib` keeps: split on `/`, dropping empty and
`.` components. -/
def pathComponents (s : String) : List String :=
  ((splitChar '/' s.data).map (fun l => (⟨l⟩ : String))).filter (fun comp => comp ≠ "" && comp ≠ ".")

/-- `PurePosixPath(s).name`: last path component, ignoring `/`, empty and `.`
components (as `pathlib` normalization does). -/
def pathName (s : String) : String := ((pathComponents s).getLast?).getD ""

/-- `PurePosixPath` `.suffix` of a file name, per CPython: the part from the
last dot, provided that dot is neither the first nor the last character. -/
def pySuffix (name : String) : String :=
  match name.data.reverse.findIdx? (· = '.') with
  | none => ""
  | some j =>
    let i := name.length - 1 - j
    if 0 < i && i < name.length - 1 then ⟨name.data.drop i⟩ else ""

/-! ## Configuration constants (anchor.py lines 21-39) -/

def DEFAULT_MODEL : String := "claude-sonnet-4-6"

def MAX_FILE_BYTES : Nat := 60000

def MAX_TURNS : Nat := 80

def SKIP_DIRS : List String :=
  [".git", "__pycache__", "node_modules", ".venv", "venv", "env",
   "dist", "build", ".next", ".nuxt", "target", "vendor", ".tox",
   ".mypy_cache", ".pytest_cache", "coverage", "htmlcov", ".turbo",
   ".cargo", "pkg", ".serverless", "cdk.out", ".terraform"]

def SKIP_EXTENSIONS : List String :=
  [".pyc", ".pyo", ".pyd", ".so", ".dylib", ".dll", ".exe",
   ".jpg", ".jpeg", ".png", ".gif", ".ico", ".svg", ".webp", ".avif",
   ".mp4", ".mp3", ".wav", ".ogg", ".zip", ".tar", ".gz", ".tgz",
   ".pdf", ".woff", ".woff2", ".ttf", ".eot", ".bin", ".db", ".sqlite"]

def OUTPUT_FILES : List String :=
  ["Dockerfile", "deploy.sh", ".gcloudignore", "DEPLOY_README.md", "deploy.yml"]

/-- Dot-files allowed by the recursive listing (anchor.py lines 56-58). -/
def DOT_ALLOWED : List String := [".env", ".env.example", ".env.sample", ".gitignore"]

/-! ## Data model -/

/-- A JSON value, as produced by `json.loads` on tool-call arguments. -/
inductive JValue
  | str (s : String)
  | bool (b : Bool)
  | num (n : Int)
  | null
deriving DecidableEq, Repr

/-- A JSON object: the parsed argument mapping of a tool call.  Keys are
unique (Python dicts); lookup takes the first match. -/
abbrev JObj := List (String × JValue)

/-- Python truthiness of a JSON value (used for `recursive`, `interactive`). -/
def jTruthy : JValue → Bool
  | .str s => s ≠ ""
  | .bool b => b
  | .num n => n ≠ 0
  | .null => false

/-- Python `str()` of a JSON value (used where any type formats fine). -/
def jFmt : JValue → String
  | .str s => s
  | .bool b => if b then "True" else "False"
  | .num n => toString n
  | .null => "None"

/-- `args.get(k, d)`. -/
def jGet (args : JObj) (k : String) (d : JValue) : JValue :=
  match args.find? (fun kv => kv.1 = k) with
  | some kv => kv.2
  | none => d

/-- How a Python exception escapes a tool body. `typeError` is the one kind
the dispatcher catches (anchor.py line 596); `exc` is any other uncaught
exception; `exit` is `sys.exit` (`SystemExit`). -/
inductive PyErr
  | typeError (msg : String)
  | exc (msg : String)
  | exit (code : Nat)
deriving DecidableEq, Repr

/-- One entry yielded by `Path.iterdir` / `Path.rglob`.  `parts` are the
components of the entry's full path (the leading root `/` component is
omitted: it never matches a skip-directory name), `name` its last
component. -/
structure DirEntry where
  name : String
  parts : List String
  isDir : Bool
deriving DecidableEq, Repr

/-- Result of a completed `subprocess.run`. -/
structure CmdOut where
  returncode : Int
  stdout : String
  stderr : String
deriving DecidableEq, Repr

/-- Outcome of a shell invocation in `run_command`: completion, the
600-second timeout, or some other exception (all three are caught there). -/
inductive RunCmdOutcome
  | finished (r : CmdOut)
  | timedOut
  | failed (e : String)
deriving DecidableEq, Repr

/-- The external world: filesystem, subprocesses, terminal, JSON parsing.
Boolean `Path` predicates are total, as in Python (they suppress
`OSError`); enumeration, `stat` and reads are `Except`-valued because the
corresponding Python calls can raise. -/
structure Env where
  pathExists : String → Bool
  isDir : String → Bool
  isFile : String → Bool
  iterdir : String → Except String (List DirEntry)
  rglob : String → Except String (List DirEntry)
  statSize : String → Except String Nat
  /-- `read_text(encoding="utf-8", errors="replace")`: decoded text with
  replacement characters; may still raise an `OSError`. -/
  readText : String → Except String String
  /-- `read_text(encoding="utf-8")` (strict, used by `push_secrets`). -/
  readTextStrict : String → Except String String
  /-- `mkdir(parents=True, exist_ok=True)` + `write_text` + conditional
  `chmod`, as one effect; the error is the exception text. -/
  writeOut : String → String → Except String Unit
  runShell : String → Bool → RunCmdOutcome
  /-- `input(...)`; `.error` models `KeyboardInterrupt`/`EOFError`. -/
  userInput : String → Except Unit String
  /-- `gcloud secrets create KEY --data-file=- --project=PID` fed VALUE. -/
  secretsCreate : String → String → String → Except String CmdOut
  /-- `gcloud secrets versions add KEY --data-file=- --project=PID` fed VALUE. -/
  secretsAdd : String → String → String → Except String CmdOut
  /-- `json.loads`; `none` models `JSONDecodeError`/`TypeError`. -/
  parseJson : String → Option JObj

/-! ## Tools (anchor.py lines 44-213) -/

/-- `"DIR "` / `"FILE"` tag (anchor.py lines 63, 69). -/
def fmtKind (isDir : Bool) : String := if isDir then "DIR " else "FILE"

/-- Display of `item.relative_to(p)` for a recursive listing entry. -/
def relDisplay (base : String) (item : DirEntry) : String :=
  String.intercalate "/" (item.parts.drop (pathComponents base).length)

/-- The recursive-mode filter of `list_directory` (anchor.py lines 54-61):
skip entries with a skip-directory component anywhere in their path,
dot-files outside the allow-list, and skipped extensions. -/
def recKeep (item : DirEntry) : Bool :=
  !(item.parts.any (fun part => SKIP_DIRS.contains part)) &&
  !(strStartsWith item.name "." && !DOT_ALLOWED.contains item.name) &&
  !(SKIP_EXTENSIONS.contains (pySuffix item.name))

/-- `"\n".join(results) if results else "(empty)"` (anchor.py line 72). -/
def joinOrEmpty (ls : List String) : String :=
  if ls.isEmpty then "(empty)" else String.intercalate "\n" ls

/-- Embeds `list_directory` (anchor.py lines 44-72).  Note the source
applies the extension and dot-file filters only in the recursive branch;
the non-recursive branch filters only on the entry's own name being a
skip-directory name.  `iterdir`/`rglob` failures (e.g. `PermissionError`)
are not caught by the source and so propagate. -/
def list_directory (env : Env) (path : String) (recursive : Bool) : Except PyErr String :=
  if !env.pathExists path then .ok s!"ERROR: Path does not exist: {path}"
  else if !env.isDir path then .ok s!"ERROR: Not a directory: {path}"
  else if recursive then
    match env.rglob path with
    | .error e => .error (.exc e)
    | .ok items =>
      .ok (joinOrEmpty ((items.filter recKeep).map
        (fun item => fmtKind item.isDir ++ "  " ++ relDisplay path item)))
  else
    match env.iterdir path with
    | .error e => .error (.exc e)
    | .ok items =>
      .ok (joinOrEmpty ((items.filter (fun item => !SKIP_DIRS.contains item.name)).map
        (fun item => fmtKind item.isDir ++ "  " ++ item.name)))

/-- The `TRUNCATED` banner of `read_file` (anchor.py line 86). -/
def truncHeader (size : Nat) : String :=
  "TRUNCATED: File too large (" ++ commaFmt size ++ " bytes), showing first "
    ++ commaFmt MAX_FILE_BYTES ++ " chars.\n\n"

/-- Embeds `read_file` (anchor.py lines 75-92).  `p.stat()` and the
`read_text` in the `TRUNCATED` branch sit outside the `try`, so their
failures propagate; only the final full read is guarded. -/
def read_file (env : Env) (path : String) : Except PyErr String :=
  if !env.pathExists path then .ok s!"ERROR: File does not exist: {path}"
  else if !env.isFile path then .ok s!"ERROR: Not a file: {path}"
  else if SKIP_EXTENSIONS.contains (pySuffix (pathName path)) then
    .ok s!"SKIPPED: Binary/media file ({pySuffix (pathName path)})"
  else
    match env.statSize path with
    | .error e => .error (.exc e)
    | .ok size =>
      if size > MAX_FILE_BYTES then
        match env.readText path with
        | .error e => .error (.exc e)
        | .ok text => .ok (truncHeader size ++ pySlice text MAX_FILE_BYTES)
      else
        match env.readText path with
        | .error e => .ok s!"ERROR reading file: {e}"
        | .ok text => .ok text

/-- Embeds `write_file` (anchor.py lines 95-104): every effect is inside
`try`/`except Exception`, so the tool always returns text.  `{len(content):,}`
counts characters of `content`. -/
def write_file (env : Env) (path content : String) : String :=
  match env.writeOut path content with
  | .error e => s!"ERROR writing file: {e}"
  | .ok _ => s!"OK: Written {path} ({commaFmt content.length} bytes)"

/-- Embeds `run_command` (anchor.py lines 107-137): fully guarded, always
returns text. -/
def run_command (env : Env) (command : String) (interactive : Bool) : String :=
  if interactive then
    match env.runShell command true with
    | .finished r => s!"Exited with code {r.returncode}"
    | .timedOut => "ERROR: Command timed out after 10 minutes"
    | .failed e => s!"ERROR: {e}"
  else
    match env.runShell command false with
    | .finished r =>
      let out := pyStrip r.stdout
      let err := pyStrip r.stderr
      let combined := out ++ (if err ≠ "" then s!"\n[stderr] {err}" else "")
      let combined := combined ++ (if r.returncode ≠ 0 then s!"\n[exit code] {r.returncode}" else "")
      if combined ≠ "" then combined else "(no output)"
    | .timedOut => "ERROR: Command timed out after 10 minutes"
    | .failed e => s!"ERROR: {e}"

/-- Embeds `ask_user` (anchor.py lines 140-153): a cancelled prompt calls
`sys.exit(1)` — an escape, not a textual result. -/
def ask_user (env : Env) (question : String) : Except PyErr String :=
  match env.userInput question with
  | .error _ => .error (.exit 1)
  | .ok v => .ok (pyStrip v)

/-! ## push_secrets (anchor.py lines 156-213) -/

/-- The parsing that `push_secrets` applies to one raw line of the env file
(anchor.py lines 176-183): strip, drop blanks / comments / lines without
`=`, partition at the first `=`, strip the key, strip whitespace and
quotes from the value.  Returns the (key, value) pair for processed lines. -/
def parseEnvLine (rawLine : String) : Option (String × String) :=
  let line := pyStrip rawLine
  if line = "" || strStartsWith line "#" then none
  else if !(pyIn "=" line) then none
  else
    let pr := pyPartition line '='
    some (pyStrip pr.1, pyStripChars (pyStripChars (pyStrip pr.2) [dquote]) [squote])

/-- Accumulated results of `push_secrets`: pushed keys and error lines, in
processing order (anchor.py lines 167-168). -/
structure PushAcc where
  pushed : List String
  errors : List String
deriving DecidableEq, Repr

/-- Processing of one line of the env file (anchor.py lines 175-204):
empty key or value is recorded as a skip; otherwise create the secret,
falling back to adding a version; each failure is recorded and processing
continues.  Only the key, the oracle's error text and fixed text enter the
accumulator — never the value. -/
def pushLine (env : Env) (project_id : String) (acc : PushAcc) (rawLine : String) : PushAcc :=
  match parseEnvLine rawLine with
  | none => acc
  | some (key, value) =>
    if key = "" || value = "" then
      { acc with errors := acc.errors ++ [s!"SKIPPED {key}: empty value — fill it in and re-run"] }
    else
      match env.secretsCreate project_id key value with
      | .error e => { acc with errors := acc.errors ++ [s!"ERROR on {key}: {e}"] }
      | .ok r1 =>
        if r1.returncode ≠ 0 then
          match env.secretsAdd project_id key value with
          | .error e => { acc with errors := acc.errors ++ [s!"ERROR on {key}: {e}"] }
          | .ok r2 =>
            if r2.returncode ≠ 0 then
              { acc with errors := acc.errors ++ [s!"ERROR on {key}: {pyStrip r2.stderr}"] }
            else { acc with pushed := acc.pushed ++ [key] }
        else { acc with pushed := acc.pushed ++ [key] }

/-- The full per-line fold of `push_secrets`. -/
def pushOutcome (env : Env) (project_id : String) (lines : List String) : PushAcc :=
  lines.foldl (pushLine env project_id) ⟨[], []⟩

/-- The report `push_secrets` returns (anchor.py lines 206-213). -/
def pushReport (env_file : String) (acc : PushAcc) : String :=
  let set_secrets := String.intercalate "," (acc.pushed.map (fun k => s!"{k}={k}:latest"))
  let l1 := "Pushed: " ++ (if !acc.pushed.isEmpty then String.intercalate ", " acc.pushed else "none")
  let ls := [l1] ++ (if !acc.errors.isEmpty then ["Errors: " ++ String.intercalate "; " acc.errors] else [])
  let ls := ls ++ [s!"File kept at: {env_file} (already in .gcloudignore and .gitignore — never committed or deployed)"]
  let ls := ls ++ [s!"Use in gcloud run deploy: --set-secrets={set_secrets}"]
  String.intercalate "\n" ls

/-- Embeds `push_secrets` (anchor.py lines 156-213).  All effects are
guarded, so the tool always returns text. -/
def push_secrets (env : Env) (env_file project_id : String) : String :=
  if !env.pathExists env_file then
    s!"ERROR: {env_file} not found. Create it with your secret values first."
  else
    match env.readTextStrict env_file with
    | .error e => s!"ERROR reading {env_file}: {e}"
    | .ok text => pushReport env_file (pushOutcome env project_id (pySplitlines text))

/-! ## Dispatcher (anchor.py lines 216-223, 590-597) -/

/-- The keys of `TOOL_MAP` (anchor.py lines 216-223). -/
def TOOL_NAMES : List String :=
  ["list_directory", "read_file", "write_file", "run_command", "ask_user", "push_secrets"]

/-- Required and optional parameter names of each tool function, from the
Python `def` signatures (defaulted parameters are optional). -/
def toolParams : String → List String × List String
  | "list_directory" => (["path"], ["recursive"])
  | "read_file" => (["path"], [])
  | "write_file" => (["path", "content"], [])
  | "run_command" => (["command"], ["interactive"])
  | "ask_user" => (["question"], [])
  | "push_secrets" => (["env_file", "project_id"], [])
  | _ => ([], [])

/-- Extraction of a `str` argument where Python would next call `Path(...)`
or another `str`-only operation outside any `try`: a non-string raises
`TypeError`. -/
def getStr (v : JValue) : Except PyErr String :=
  match v with
  | .str s => .ok s
  | _ => .error (.typeError "argument should be a str, not another type")

/-- `fn(**args)` for the named tool: raises `TypeError` if a required
parameter is missing or an unexpected keyword is present, then runs the
tool body on the extracted arguments. -/
def callTool (env : Env) (name : String) (args : JObj) : Except PyErr String :=
  let ps := toolParams name
  if ps.1.any (fun k => !(args.any (fun kv => kv.1 = k))) then
    .error (.typeError s!"{name}() missing a required keyword-only argument")
  else if args.any (fun kv => !((ps.1 ++ ps.2).contains kv.1)) then
    .error (.typeError s!"{name}() got an unexpected keyword argument")
  else
    match name with
    | "list_directory" => do
      let path ← getStr (jGet args "path" .null)
      list_directory env path (jTruthy (jGet args "recursive" (.bool false)))
    | "read_file" => do
      let path ← getStr (jGet args "path" .null)
      read_file env path
    | "write_file" => do
      let path ← getStr (jGet args "path" .null)
      match jGet args "content" .null with
      | .str content => .ok (write_file env path content)
      | _ => .ok "ERROR writing file: data must be str, not another type"
    | "run_command" =>
      match jGet args "command" .null with
      | .str command => .ok (run_command env command (jTruthy (jGet args "interactive" (.bool false))))
      | _ => .ok "ERROR: expected str, bytes or os.PathLike object"
    | "ask_user" => ask_user env (jFmt (jGet args "question" .null))
    | "push_secrets" => do
      let env_file ← getStr (jGet args "env_file" .null)
      .ok (push_secrets env env_file (jFmt (jGet args "project_id" .null)))
    | _ => .ok ""

/-- Embeds `execute_tool` (anchor.py lines 590-597): unknown names become a
textual error; `except TypeError` converts argument-shape errors (and any
`TypeError` escaping the body) to a textual error; every other exception
propagates. -/
def execute_tool (env : Env) (name : String) (args : JObj) : Except PyErr String :=
  if !TOOL_NAMES.contains name then .ok ("ERROR: Unknown tool \x27" ++ name ++ "\x27")
  else
    match callTool env name args with
    | .error (.typeError e) => .ok s!"ERROR: Bad arguments for {name}: {e}"
    | r => r

/-! ## Conversation data model and agentic loop (anchor.py lines 600-705) -/

inductive Role
  | user
  | assistant
  | tool
deriving DecidableEq, Repr

/-- One tool call of an assistant message: `tc.id`, `tc.function.name`,
`tc.function.arguments` (raw text, parsed later by `json.loads`). -/
structure ToolCall where
  id : String
  name : String
  arguments : String
deriving DecidableEq, Repr

/-- One entry of the `messages` list.  `content`/`tool_calls` are only set
on the entries that carry them (anchor.py lines 633-648, 697-701). -/
structure Message where
  role : Role
  content : Option String := none
  tool_calls : List ToolCall := []
  tool_call_id : Option String := none
deriving DecidableEq, Repr

/-- The assistant message returned by one model completion. -/
structure AssistantMsg where
  content : Option String := none
  tool_calls : List ToolCall := []
deriving DecidableEq, Repr

/-- Python adds the `content` key only when `msg.content` is truthy
(anchor.py line 634): `None` and the empty string are both dropped. -/
def contentField : Option String → Option String
  | some s => if s = "" then none else some s
  | none => none

/-- The assistant entry appended to the conversation (anchor.py lines 633-648). -/
def assistantEntry (msg : AssistantMsg) : Message :=
  { role := .assistant, content := contentField msg.content, tool_calls := msg.tool_calls }

/-- The synthetic user message injected when the agent stops early
(anchor.py lines 657-660). -/
def nudgeMessage : Message :=
  { role := .user,
    content := some "Continue. Do not summarize or plan — use tools to execute the next phase now." }

/-- `deploy_done` (anchor.py line 652): some recorded write targets a path
containing `cicd-key.json` or `deploy.sh` as a substring. -/
def deployDone (files_written : List String) : Bool :=
  files_written.any (fun f => pyIn "cicd-key.json" f || pyIn "deploy.sh" f)

/-- The mutable loop state: the conversation log and the recorded artifact
writes (anchor.py lines 606-607). -/
structure LoopState where
  messages : List Message
  files_written : List String
deriving DecidableEq, Repr

/-! ### Rate-limit retry (anchor.py lines 613-628) -/

/-- Instrumented result of the retry wrapper: the sleeps performed (in
seconds), the number of provider calls made, and the response (`none` =
the `RateLimitError` was re-raised). -/
structure RetryOut (α : Type) where
  waits : List Nat
  calls : Nat
  result : Option α
deriving DecidableEq, Repr

/-- The body of `for attempt in range(5)` from attempt `k` with `fuel`
iterations left: on success break with the response; on `RateLimitError`
sleep `2 ** attempt * 10` and, if `attempt == 4`, re-raise. -/
def retryGo (call : Nat → Except Unit α) : Nat → Nat → RetryOut α
  | 0, _ => ⟨[], 0, none⟩
  | fuel + 1, k =>
    match call k with
    | .ok r => ⟨[], 1, some r⟩
    | .error _ =>
      let w := 2 ^ k * 10
      if k = 4 then ⟨[w], 1, none⟩
      else
        let rest := retryGo call fuel (k + 1)
        ⟨w :: rest.waits, 1 + rest.calls, rest.result⟩

/-- Embeds the retry loop around `litellm.completion` (anchor.py lines
613-628): `call k` is the provider's response to the attempt with index
`k` (`.error` = `RateLimitError`). -/
def rateLimitRetry (call : Nat → Except Unit α) : RetryOut α := retryGo call 5 0

/-! ### Per-turn processing -/

/-- The artifact bookkeeping done in the logging section (anchor.py lines
682-687), which runs before `execute_tool`: for a `write_file` call,
record `args.get("path", "")` when its basename is in `OUTPUT_FILES`.
`Path(fpath)` on a non-string raises `TypeError` here, uncaught inside
`run_agent`. -/
def recordWrite (st : LoopState) (name : String) (args : JObj) : Except PyErr LoopState :=
  if name = "write_file" then
    match jGet args "path" (.str "") with
    | .str fpath =>
      if OUTPUT_FILES.contains (pathName fpath) then
        .ok { st with files_written := st.files_written ++ [fpath] }
      else .ok st
    | _ => .error (.typeError "argument should be a str, not another type")
  else .ok st

/-- Processing of one tool call (anchor.py lines 669-701): parse arguments
(`json.loads` failure coerces to `{}`), record artifact writes, dispatch,
append the tool-result message carrying the call's id.  The returned flag
is `some e` when an exception escaped (the partial state is what the run
held at that point). -/
def processToolCall (env : Env) (st : LoopState) (tc : ToolCall) : LoopState × Option PyErr :=
  match recordWrite st tc.name ((env.parseJson tc.arguments).getD []) with
  | .error e => (st, some e)
  | .ok st1 =>
    match execute_tool env tc.name ((env.parseJson tc.arguments).getD []) with
    | .error e => (st1, some e)
    | .ok result =>
      ({ st1 with messages := st1.messages ++ [{ role := .tool, content := some result, tool_call_id := some tc.id }] },
       none)

/-- Sequential dispatch of the turn's tool calls, in order, stopping only
if an exception escapes. -/
def processToolCalls (env : Env) (st : LoopState) : List ToolCall → LoopState × Option PyErr
  | [] => (st, none)
  | tc :: rest =>
    match processToolCall env st tc with
    | (st1, some e) => (st1, some e)
    | (st1, none) => processToolCalls env st1 rest

/-- Result of one iteration of the `for turn in ...` loop: continue to the
next turn, `break` (all done), or an exception escaping `run_agent`.  Each
carries the number of provider calls the turn made. -/
inductive TurnRes
  | cont (st : LoopState) (calls : Nat)
  | stop (st : LoopState) (calls : Nat)
  | crashed (st : LoopState) (e : PyErr) (calls : Nat)
deriving DecidableEq, Repr

/-- One turn of `run_agent` (anchor.py lines 609-701): call the model with
retry; append the assistant entry; with no tool calls either `break`
(deploy done) or inject the nudge and continue; otherwise dispatch every
tool call in order and continue. -/
def runTurn (env : Env) (llm : List Message → Nat → Except Unit AssistantMsg)
    (st : LoopState) : TurnRes :=
  match (rateLimitRetry (llm st.messages)).result with
  | none => .crashed st (.exc "litellm.RateLimitError") (rateLimitRetry (llm st.messages)).calls
  | some msg =>
    if msg.tool_calls.isEmpty then
      -- the assistant append does not change `files_written`, so `deploy_done`
      -- reads the same artifact list the source checks after the append
      if !deployDone st.files_written then
        .cont { st with messages := (st.messages ++ [assistantEntry msg]) ++ [nudgeMessage] }
          (rateLimitRetry (llm st.messages)).calls
      else .stop { st with messages := st.messages ++ [assistantEntry msg] }
        (rateLimitRetry (llm st.messages)).calls
    else
      match processToolCalls env { st with messages := st.messages ++ [assistantEntry msg] } msg.tool_calls with
      | (st2, none) => .cont st2 (rateLimitRetry (llm st.messages)).calls
      | (st2, some e) => .crashed st2 e (rateLimitRetry (llm st.messages)).calls

/-- How a run ends: `done` (the `break` at anchor.py line 665), `aborted`
(the `for`-`else` at line 702: turn budget exhausted), or `crashed`
(an exception escaped `run_agent`). -/
inductive Outcome
  | done
  | aborted
  | crashed (e : PyErr)
deriving DecidableEq, Repr

/-- Final state of a run, instrumented with the number of provider calls
and of loop turns executed. -/
structure RunResult where
  state : LoopState
  outcome : Outcome
  modelCalls : Nat
  turnsRun : Nat
deriving DecidableEq, Repr

/-- The `for turn in range(1, max_turns + 1)` loop with `fuel` turns left. -/
def runLoop (env : Env) (llm : List Message → Nat → Except Unit AssistantMsg) :
    Nat → LoopState → Nat → Nat → RunResult
  | 0, st, calls, turns => ⟨st, .aborted, calls, turns⟩
  | n + 1, st, calls, turns =>
    match runTurn env llm st with
    | .stop st2 c => ⟨st2, .done, calls + c, turns + 1⟩
    | .crashed st2 e c => ⟨st2, .crashed e, calls + c, turns + 1⟩
    | .cont st2 c => runLoop env llm n st2 (calls + c) (turns + 1)

/-- Placeholder for the literal task prompt (anchor.py lines 344-585).
The full text is ~240 lines of natural-language deployment instructions —
pure data to the orchestrator (spec §1 puts it out of scope); only its
opening is reproduced, with the same `project_path` interpolation.  No
theorem below depends on this text. -/
def build_prompt (project_path : String) : String :=
  "You are Anchor, a cloud deployment agent for Google Cloud Run.\n\nYour job: scan the project at `"
    ++ project_path ++ "`, then FULLY DEPLOY IT — no manual steps left for the user."

/-- Embeds `run_agent` (anchor.py lines 600-705), parameterized by the turn
budget (the source runs it with `MAX_TURNS = 80`): seed the conversation
with the task prompt and run the turn loop. -/
def run_agent (env : Env) (llm : List Message → Nat → Except Unit AssistantMsg)
    (project_path : String) (max_turns : Nat) : RunResult :=
  runLoop env llm max_turns
    ⟨[{ role := .user, content := some (build_prompt project_path) }], []⟩ 0 0

/-! ## Derived observations used by the theorems -/

/-- The tool-result message a successful dispatch of `tc` appends. -/
def toolResultContent (env : Env) (tc : ToolCall) : String :=
  match execute_tool env tc.name ((env.parseJson tc.arguments).getD []) with
  | .ok r => r
  | .error _ => ""

/-- The tool-role message carrying `tc`'s id and its dispatch result. -/
def toolResultMsg (env : Env) (tc : ToolCall) : Message :=
  { role := .tool, content := some (toolResultContent env tc), tool_call_id := some tc.id }

/-- Number of injected nudge messages in a conversation. -/
def nudgeCount (msgs : List Message) : Nat :=
  (msgs.filter (fun m => m.role = .user && m.content = nudgeMessage.content)).length

/-- What a line of the secrets file reveals to `push_secrets`' observable
behavior: nothing for skipped lines, otherwise the key and whether the
value is empty.  Two files with the same shapes are indistinguishable from
the report (given value-blind external calls). -/
def lineShape (rawLine : String) : Option (String × Bool) :=
  (parseEnvLine rawLine).map (fun kv => (kv.1, kv.2 = ""))

/-- An `Env` whose gcloud secret-store calls never depend on the secret
value fed on stdin (the code sends the value only there). -/
def ValueBlind (env : Env) : Prop :=
  (∀ pid k v v2, env.secretsCreate pid k v = env.secretsCreate pid k v2) ∧
  (∀ pid k v v2, env.secretsAdd pid k v = env.secretsAdd pid k v2)

/-! ## Concrete scenario environments and model scripts -/

/-- Raw `tc.function.arguments` text of a `write_file` call for `/p/Dockerfile`. -/
def argsDockerfile : String :=
  "\x7b\x22path\x22: \x22/p/Dockerfile\x22, \x22content\x22: \x22FROM python\x22\x7d"

/-- Raw arguments of a `write_file` call for `/p/deploy.sh`. -/
def argsDeploySh : String :=
  "\x7b\x22path\x22: \x22/p/deploy.sh\x22, \x22content\x22: \x22gcloud run deploy\x22\x7d"

/-- Raw arguments of a `push_secrets` call for `/p/.env.anchor`. -/
def argsPush : String :=
  "\x7b\x22env_file\x22: \x22/p/.env.anchor\x22, \x22project_id\x22: \x22proj\x22\x7d"

/-- Raw arguments of a `read_file` (or `list_directory`) call on `/p/.env.anchor`. -/
def argsReadEnv : String := "\x7b\x22path\x22: \x22/p/.env.anchor\x22\x7d"

/-- `json.loads` on exactly the four concrete argument strings above. -/
def scenParseJson (s : String) : Option JObj :=
  if s = argsDockerfile then some [("path", .str "/p/Dockerfile"), ("content", .str "FROM python")]
  else if s = argsDeploySh then some [("path", .str "/p/deploy.sh"), ("content", .str "gcloud run deploy")]
  else if s = argsPush then some [("env_file", .str "/p/.env.anchor"), ("project_id", .str "proj")]
  else if s = argsReadEnv then some [("path", .str "/p/.env.anchor")]
  else none

/-- A concrete healthy world: every path exists, the secrets file
`/p/.env.anchor` holds one secret `PASSWORD=hunter2xyz`, writes and
secret-store calls succeed. -/
def scenEnv : Env :=
  { pathExists := fun _ => true, isDir := fun _ => true, isFile := fun _ => true,
    iterdir := fun _ => .ok [], rglob := fun _ => .ok [],
    statSize := fun _ => .ok 19, readText := fun _ => .ok "PASSWORD=hunter2xyz",
    readTextStrict := fun _ => .ok "PASSWORD=hunter2xyz",
    writeOut := fun _ _ => .ok (), runShell := fun _ _ => .finished ⟨0, "", ""⟩,
    userInput := fun _ => .ok "", secretsCreate := fun _ _ _ => .ok ⟨0, "", ""⟩,
    secretsAdd := fun _ _ _ => .ok ⟨0, "", ""⟩, parseJson := scenParseJson }

/-- Model script for the two-phase completion scenario (C5): write
`Dockerfile`, stop; after the nudge write `deploy.sh`, stop. -/
def llmTwoPhase (msgs : List Message) (_ : Nat) : Except Unit AssistantMsg :=
  .ok (if msgs.length = 1 then ⟨none, [⟨"tc1", "write_file", argsDockerfile⟩]⟩
  else if msgs.length = 3 then ⟨some "done for now", []⟩
  else if msgs.length = 5 then ⟨none, [⟨"tc2", "write_file", argsDeploySh⟩]⟩
  else ⟨some "all done", []⟩)

/-- Model script that always issues one harmless no-op tool call (a
`read_file` of an existing small file). -/
def llmNoop (_ : List Message) (_ : Nat) : Except Unit AssistantMsg :=
  .ok ⟨none, [⟨"t", "read_file", argsReadEnv⟩]⟩

/-- Model script that only narrates and never calls a tool. -/
def llmNarrate (_ : List Message) (_ : Nat) : Except Unit AssistantMsg :=
  .ok ⟨some "let me think about the plan", []⟩

/-- Model script for the secret-leak run (C1): push the secrets file, then
read the very same file back with `read_file`. -/
def llmLeak (msgs : List Message) (_ : Nat) : Except Unit AssistantMsg :=
  .ok (if msgs.length = 1 then ⟨none, [⟨"p1", "push_secrets", argsPush⟩]⟩
  else ⟨none, [⟨"r1", "read_file", argsReadEnv⟩]⟩)

/-- A world in which every filesystem write fails with a permission error. -/
def envFailingWrites : Env :=
  { scenEnv with writeOut := fun _ _ => .error "[Errno 13] Permission denied" }

/-- Model script that writes `deploy.sh` once and then stops. -/
def llmWriteThenStop (msgs : List Message) (_ : Nat) : Except Unit AssistantMsg :=
  .ok (if msgs.length = 1 then ⟨none, [⟨"w1", "write_file", argsDeploySh⟩]⟩
  else ⟨some "finished", []⟩)

/-- A world with an unreadable directory: `iterdir` raises `PermissionError`. -/
def envLockedDir : Env :=
  { scenEnv with iterdir := fun _ => .error "PermissionError: [Errno 13] Permission denied: \x27/locked\x27" }

/-- Direct children of the mixed test directory: a dot-file, a `.pyc` file
and a `node_modules` directory. -/
def mixedChildren : List DirEntry :=
  [⟨".secret", ["d", ".secret"], false⟩, ⟨"a.pyc", ["d", "a.pyc"], false⟩,
   ⟨"node_modules", ["d", "node_modules"], true⟩]

/-- A directory whose direct children are a dot-file, a `.pyc` file and a
`node_modules` directory. -/
def envMixedDir : Env :=
  { scenEnv with
    iterdir := fun _ => .ok mixedChildren,
    rglob := fun _ => .ok
      [⟨".DS_Store", ["d", ".DS_Store"], false⟩, ⟨"x.png", ["d", "x.png"], false⟩,
       ⟨"dep.js", ["d", "node_modules", "dep.js"], false⟩,
       ⟨"app.py", ["d", "src", "app.py"], false⟩] }

/-- Secrets file `A=1`, `B=` (empty), `# comment`, `C=3`, healthy store. -/
def envSecretsABC : Env :=
  { scenEnv with readTextStrict := fun _ => .ok "A=1\nB=\n# comment\nC=3" }

/-- Secrets file `X=1`, `Y=2` where the store rejects key `X` outright
(create fails, adding a version fails too) but accepts `Y`. -/
def envSecretsMixed : Env :=
  { scenEnv with
    readTextStrict := fun _ => .ok "X=1\nY=2",
    secretsCreate := fun _ k _ => if k = "X" then .ok ⟨1, "", "exists"⟩ else .ok ⟨0, "", ""⟩,
    secretsAdd := fun _ k _ => if k = "X" then .ok ⟨1, "", "boom\n"⟩ else .ok ⟨0, "", ""⟩ }

/-- A world holding one oversized file (70,000 bytes). -/
def envBigFile : Env :=
  { scenEnv with statSize := fun _ => .ok 70000, readText := fun _ => .ok "hello world" }

/-- UTF-8 byte length of one character — what `st_size` counts per
character for a UTF-8 file that decodes without replacement. -/
def charUtf8Size (c : Char) : Nat :=
  if c.val < 128 then 1 else if c.val < 2048 then 2 else if c.val < 65536 then 3 else 4

/-- UTF-8 byte length of a decoded text: the on-disk size of the file it
was decoded from. -/
def utf8Len (s : String) : Nat := (s.data.map charUtf8Size).sum

/-- 35,000 copies of the two-byte character `é`: the permissive decode of
a 70,000-byte UTF-8 file holding only that character. -/
def eAcute35000 : String := ⟨List.replicate 35000 'é'⟩

/-- A world holding the 70,000-byte file of 35,000 two-byte characters;
`statSize` reports the file's true byte size, `readText` its decode. -/
def envTwoByteFile : Env :=
  { scenEnv with statSize := fun _ => .ok 70000, readText := fun _ => .ok eAcute35000 }

/-- A tiny mid-run state for exercising a single turn: one prior user
message, no artifacts yet. -/
def wSt : LoopState := ⟨[{ role := .user, content := some "go" }], []⟩

/-- A single-turn model script issuing one `write_file` call. -/
def wLlm (_ : List Message) (_ : Nat) : Except Unit AssistantMsg :=
  .ok ⟨some "writing", [⟨"tcw", "write_file", argsDockerfile⟩]⟩

/-- The assistant message `wLlm` produces. -/
def wMsg : AssistantMsg := ⟨some "writing", [⟨"tcw", "write_file", argsDockerfile⟩]⟩

/-- The state one `wLlm` turn from `wSt` produces: the assistant message,
then the tool-result message carrying the call's id. -/
def wC3Result : LoopState :=
  ⟨[{ role := .user, content := some "go" },
    { role := .assistant, content := some "writing",
      tool_calls := [⟨"tcw", "write_file", argsDockerfile⟩] },
    { role := .tool, content := some "OK: Written /p/Dockerfile (11 bytes)",
      tool_call_id := some "tcw" }],
   ["/p/Dockerfile"]⟩

/-! ## Helper lemmas -/

theorem strDataAppend (a b : String) : (a ++ b).data = a.data ++ b.data := by
  cases a; cases b; rfl

theorem recordWrite_messages (st st1 : LoopState) (name : String) (args : JObj)
    (h : recordWrite st name args = .ok st1) : st1.messages = st.messages := by
  unfold recordWrite at h
  split at h
  · split at h
    · split at h
      · simp only [Except.ok.injEq] at h
        subst h
        rfl
      · simp only [Except.ok.injEq] at h
        subst h
        rfl
    · simp_all
  · simp only [Except.ok.injEq] at h
    subst h
    rfl

theorem processToolCall_ok (env : Env) (st st1 : LoopState) (tc : ToolCall)
    (h : processToolCall env st tc = (st1, none)) :
    st1.messages = st.messages ++ [toolResultMsg env tc] := by
  unfold processToolCall at h
  cases hr : recordWrite st tc.name ((env.parseJson tc.arguments).getD []) with
  | error e => rw [hr] at h; simp at h
  | ok st2 =>
    rw [hr] at h
    cases he : execute_tool env tc.name ((env.parseJson tc.arguments).getD []) with
    | error e => rw [he] at h; simp at h
    | ok r =>
      rw [he] at h
      have hm := recordWrite_messages st st2 tc.name _ hr
      simp only [Prod.mk.injEq] at h
      rw [← h.1]
      simp [hm, toolResultMsg, toolResultContent, he]

theorem processToolCalls_ok (env : Env) :
    ∀ (tcs : List ToolCall) (st st1 : LoopState),
    processToolCalls env st tcs = (st1, none) →
    st1.messages = st.messages ++ tcs.map (toolResultMsg env) := by
  intro tcs
  induction tcs with
  | nil =>
    intro st st1 h
    simp only [processToolCalls, Prod.mk.injEq] at h
    simp [← h.1]
  | cons tc rest ih =>
    intro st st1 h
    simp only [processToolCalls] at h
    cases hp : processToolCall env st tc with
    | mk st2 oe =>
      rw [hp] at h
      cases oe with
      | some e => simp at h
      | none =>
        have h2 := ih st2 st1 h
        have h1 := processToolCall_ok env st st2 tc hp
        rw [h2, h1]
        simp

theorem runLoop_turnsRun_le (env : Env) (llm : List Message → Nat → Except Unit AssistantMsg) :
    ∀ (n : Nat) (st : LoopState) (calls turns : Nat),
    (runLoop env llm n st calls turns).turnsRun ≤ turns + n := by
  intro n
  induction n with
  | zero => intro st calls turns; simp [runLoop]
  | succ n ih =>
    intro st calls turns
    cases hrt : runTurn env llm st with
    | cont st2 c =>
      have := ih st2 (calls + c) (turns + 1)
      simp only [runLoop, hrt]
      omega
    | stop st2 c =>
      simp only [runLoop, hrt]
      omega
    | crashed st2 e c =>
      simp only [runLoop, hrt]
      omega

/-! ## Claim C4 — rate-limit backoff schedule -/

/-- Claim C4: on consecutive rate-limit failures of the model call, the
waits are exactly base × 2^attempt = 10, 20, 40, 80, 160 seconds for
attempts 0..4; the fifth consecutive failure is re-raised as a fatal
failure (no response, exactly five provider calls, never a sixth) rather
than retried again; and a success at attempt j < 5 performs exactly the
first j waits of that schedule. -/
theorem C4_backoff_schedule {α : Type} :
    (∀ (call : Nat → Except Unit α),
      (∀ k, k < 5 → call k = .error ()) →
      rateLimitRetry call = ⟨[10, 20, 40, 80, 160], 5, none⟩)
    ∧ (∀ (call : Nat → Except Unit α) (j : Nat) (r : α),
      j < 5 → (∀ k, k < j → call k = .error ()) → call j = .ok r →
      rateLimitRetry call = ⟨(List.range j).map (fun k => 2 ^ k * 10), j + 1, some r⟩) := by
  constructor
  · intro call h
    have h0 := h 0 (by omega)
    have h1 := h 1 (by omega)
    have h2 := h 2 (by omega)
    have h3 := h 3 (by omega)
    have h4 := h 4 (by omega)
    simp [rateLimitRetry, retryGo, h0, h1, h2, h3, h4]
  · intro call j r hj h hok
    interval_cases j
    · simp [rateLimitRetry, retryGo, hok]
    · have h0 := h 0 (by omega)
      simp [rateLimitRetry, retryGo, h0, hok]
      decide
    · have h0 := h 0 (by omega)
      have h1 := h 1 (by omega)
      simp [rateLimitRetry, retryGo, h0, h1, hok]
      decide
    · have h0 := h 0 (by omega)
      have h1 := h 1 (by omega)
      have h2 := h 2 (by omega)
      simp [rateLimitRetry, retryGo, h0, h1, h2, hok]
      decide
    · have h0 := h 0 (by omega)
      have h1 := h 1 (by omega)
      have h2 := h 2 (by omega)
      have h3 := h 3 (by omega)
      simp [rateLimitRetry, retryGo, h0, h1, h2, h3, hok]
      decide

/-- Claim C4 witness: with every attempt rate-limited the waits are
10, 20, 40, 80, 160 and the error is re-raised after exactly five calls;
with the first two attempts rate-limited and the third succeeding, the
waits are 10, 20. -/
theorem C4_backoff_schedule_witness :
    rateLimitRetry (fun _ => (.error () : Except Unit Nat)) = ⟨[10, 20, 40, 80, 160], 5, none⟩
    ∧ rateLimitRetry (fun k => if k < 2 then .error () else (.ok 7 : Except Unit Nat))
        = ⟨[10, 20], 3, some 7⟩ := by
  constructor
  · exact C4_backoff_schedule.1 _ (fun k _ => rfl)
  · have := C4_backoff_schedule.2
      (fun k => if k < 2 then .error () else (.ok 7 : Except Unit Nat)) 2 7
      (by omega) (fun k hk => by interval_cases k <;> rfl) (by rfl)
    simpa using this

/-! ## Claim C2 — dispatcher robustness -/

/-- Claim C2 counterexample: tool execution CAN raise past the dispatcher
boundary.  `list_directory`'s directory enumeration has no `try`, and
`execute_tool` catches only `TypeError`, so a `PermissionError` raised by
`iterdir` on an unreadable directory escapes `execute_tool` (and would
crash `run_agent`), contradicting "tool execution never raises an
exception past the dispatcher boundary". -/
theorem C2_counterexample :
    execute_tool envLockedDir "list_directory" [("path", .str "/locked")] =
      .error (.exc "PermissionError: [Errno 13] Permission denied: \x27/locked\x27") := by
  rfl

/-- Claim C2 (amended): an unknown tool name, arguments coerced to the
empty mapping after a JSON-parse failure, and missing or unexpected
argument names all yield a textual result prefixed `ERROR:` — the
dispatcher converts these `TypeError`s to text and does not raise.  (Only
exceptions other than `TypeError` raised inside a tool body can escape,
per the counterexample.) -/
theorem C2_amended_dispatch_errors :
    (∀ (env : Env) (name : String) (args : JObj),
      TOOL_NAMES.contains name = false →
      execute_tool env name args = .ok ("ERROR: Unknown tool \x27" ++ name ++ "\x27"))
    ∧ (∀ env : Env,
      execute_tool env "list_directory" [] =
        .ok "ERROR: Bad arguments for list_directory: list_directory() missing a required keyword-only argument"
      ∧ execute_tool env "read_file" [] =
        .ok "ERROR: Bad arguments for read_file: read_file() missing a required keyword-only argument"
      ∧ execute_tool env "write_file" [] =
        .ok "ERROR: Bad arguments for write_file: write_file() missing a required keyword-only argument"
      ∧ execute_tool env "run_command" [] =
        .ok "ERROR: Bad arguments for run_command: run_command() missing a required keyword-only argument"
      ∧ execute_tool env "ask_user" [] =
        .ok "ERROR: Bad arguments for ask_user: ask_user() missing a required keyword-only argument"
      ∧ execute_tool env "push_secrets" [] =
        .ok "ERROR: Bad arguments for push_secrets: push_secrets() missing a required keyword-only argument")
    ∧ (∀ (env : Env) (v : JValue),
      execute_tool env "read_file" [("path", v), ("mode", .bool true)] =
        .ok "ERROR: Bad arguments for read_file: read_file() got an unexpected keyword argument") := by
  refine ⟨?_, ?_, ?_⟩
  · intro env name args h
    unfold execute_tool
    rw [h]
    rfl
  · intro env
    exact ⟨rfl, rfl, rfl, rfl, rfl, rfl⟩
  · intro env v
    rfl

/-- Claim C2 witness: the amended dispatch guarantees at concrete inputs —
an unknown tool, an empty argument mapping, and an unexpected argument
name each produce an `ERROR:`-prefixed textual result. -/
theorem C2_amended_dispatch_errors_witness :
    execute_tool scenEnv "frobnicate" [] = .ok ("ERROR: Unknown tool \x27" ++ "frobnicate" ++ "\x27")
    ∧ execute_tool scenEnv "read_file" [] =
        .ok "ERROR: Bad arguments for read_file: read_file() missing a required keyword-only argument"
    ∧ execute_tool scenEnv "read_file" [("path", .str "/x"), ("mode", .bool true)] =
        .ok "ERROR: Bad arguments for read_file: read_file() got an unexpected keyword argument" :=
  ⟨C2_amended_dispatch_errors.1 scenEnv "frobnicate" [] (by decide),
   (C2_amended_dispatch_errors.2.1 scenEnv).2.1,
   C2_amended_dispatch_errors.2.2 scenEnv (.str "/x")⟩

/-! ## Claim C3 — tool-call / tool-result pairing -/

/-- Claim C3: after an assistant message carrying N tool calls, the loop
appends — before the next model invocation — exactly N tool-role messages
(and nothing else), dispatching the calls sequentially in the order
received, the i-th appended message carrying a `tool_call_id` equal to the
id of the i-th tool call. -/
theorem C3_tool_result_pairing (env : Env) (llm : List Message → Nat → Except Unit AssistantMsg)
    (st st2 : LoopState) (c : Nat) (msg : AssistantMsg)
    (hmsg : (rateLimitRetry (llm st.messages)).result = some msg)
    (hne : msg.tool_calls ≠ [])
    (h : runTurn env llm st = .cont st2 c) :
    st2.messages = (st.messages ++ [assistantEntry msg]) ++ msg.tool_calls.map (toolResultMsg env)
    ∧ (msg.tool_calls.map (toolResultMsg env)).length = msg.tool_calls.length
    ∧ (msg.tool_calls.map (toolResultMsg env)).map (fun m => (m.role, m.tool_call_id))
        = msg.tool_calls.map (fun tc => (Role.tool, some tc.id)) := by
  refine ⟨?_, by simp, by simp [toolResultMsg]⟩
  have hni : msg.tool_calls.isEmpty = false := by
    cases hcalls : msg.tool_calls with
    | nil => exact absurd hcalls hne
    | cons a l => rfl
  have hrun : runTurn env llm st =
      (match processToolCalls env { st with messages := st.messages ++ [assistantEntry msg] } msg.tool_calls with
       | (st3, none) => .cont st3 (rateLimitRetry (llm st.messages)).calls
       | (st3, some e) => .crashed st3 e (rateLimitRetry (llm st.messages)).calls) := by
    unfold runTurn
    rw [hmsg]
    simp [hni]
  rw [hrun] at h
  cases hp : processToolCalls env { st with messages := st.messages ++ [assistantEntry msg] } msg.tool_calls with
  | mk st3 oe =>
    rw [hp] at h
    cases oe with
    | some e => simp at h
    | none =>
      simp only [TurnRes.cont.injEq] at h
      obtain ⟨h1, _⟩ := h
      subst h1
      simpa using processToolCalls_ok env msg.tool_calls _ _ hp

/-- Claim C3 witness: a concrete turn with one `write_file` tool call
appends exactly the assistant message and one tool message carrying the
call's id `tcw`. -/
theorem C3_tool_result_pairing_witness :
    wC3Result.messages = (wSt.messages ++ [assistantEntry wMsg])
        ++ wMsg.tool_calls.map (toolResultMsg scenEnv)
    ∧ (wMsg.tool_calls.map (toolResultMsg scenEnv)).map (fun m => (m.role, m.tool_call_id))
        = wMsg.tool_calls.map (fun tc => (Role.tool, some tc.id)) := by
  have h := C3_tool_result_pairing scenEnv wLlm wSt wC3Result 1 wMsg (by rfl) (by decide) (by rfl)
  exact ⟨h.1, h.2.2⟩

/-! ## Claim C5 — nudge and completion -/

/-- Claim C5: when the assistant message carries no tool calls, the loop
appends exactly one synthetic user message (the nudge, instructing the
model to continue without summarizing) and loops if the completion
criterion over recorded artifacts is unsatisfied, and terminates in Done
if it is satisfied; concretely, a run that writes `Dockerfile`, stops
without tool calls (one nudge), then writes `deploy.sh` and stops again
reaches Done on that turn with exactly one nudge in the conversation. -/
theorem C5_nudge_or_done :
    (∀ (env : Env) (llm : List Message → Nat → Except Unit AssistantMsg)
        (st : LoopState) (msg : AssistantMsg),
      (rateLimitRetry (llm st.messages)).result = some msg →
      msg.tool_calls = [] →
      deployDone st.files_written = false →
      runTurn env llm st = .cont
        { st with messages := (st.messages ++ [assistantEntry msg]) ++ [nudgeMessage] }
        (rateLimitRetry (llm st.messages)).calls)
    ∧ (∀ (env : Env) (llm : List Message → Nat → Except Unit AssistantMsg)
        (st : LoopState) (msg : AssistantMsg),
      (rateLimitRetry (llm st.messages)).result = some msg →
      msg.tool_calls = [] →
      deployDone st.files_written = true →
      runTurn env llm st = .stop { st with messages := st.messages ++ [assistantEntry msg] }
        (rateLimitRetry (llm st.messages)).calls)
    ∧ ((run_agent scenEnv llmTwoPhase "/p" 10).outcome = .done
       ∧ (run_agent scenEnv llmTwoPhase "/p" 10).turnsRun = 4
       ∧ nudgeCount (run_agent scenEnv llmTwoPhase "/p" 10).state.messages = 1) := by
  refine ⟨?_, ?_, by decide⟩
  · intro env llm st msg hm he hd
    unfold runTurn
    rw [hm]
    simp [he, hd]
  · intro env llm st msg hm he hd
    unfold runTurn
    rw [hm]
    simp [he, hd]

/-- Claim C5 witness: a narrating assistant turn from a state with no
artifacts recorded appends the assistant message and exactly one nudge
message, then continues. -/
theorem C5_nudge_or_done_witness :
    runTurn scenEnv llmNarrate wSt = .cont
      { wSt with messages := (wSt.messages ++ [assistantEntry ⟨some "let me think about the plan", []⟩]) ++ [nudgeMessage] }
      ((rateLimitRetry (llmNarrate wSt.messages)).calls) :=
  C5_nudge_or_done.1 scenEnv llmNarrate wSt ⟨some "let me think about the plan", []⟩ rfl rfl (by decide)

/-! ## Claim C6 — turn budget -/

/-- Claim C6: the loop executes at most `max_turns` turns (one model
invocation per turn), for every environment and model script; with
`max_turns = 3` and a model that always requests a harmless no-op tool
call the run ends Aborted after exactly 3 turns and 3 provider calls,
never making a 4th; and a model that only narrates is nudged each turn,
each nudge turn consuming the budget: again Aborted after exactly 3
turns (3 nudges). -/
theorem C6_turn_budget :
    (∀ (env : Env) (llm : List Message → Nat → Except Unit AssistantMsg) (pp : String) (mt : Nat),
      (run_agent env llm pp mt).turnsRun ≤ mt)
    ∧ ((run_agent scenEnv llmNoop "/p" 3).outcome = .aborted
       ∧ (run_agent scenEnv llmNoop "/p" 3).turnsRun = 3
       ∧ (run_agent scenEnv llmNoop "/p" 3).modelCalls = 3)
    ∧ ((run_agent scenEnv llmNarrate "/p" 3).outcome = .aborted
       ∧ (run_agent scenEnv llmNarrate "/p" 3).turnsRun = 3
       ∧ nudgeCount (run_agent scenEnv llmNarrate "/p" 3).state.messages = 3) := by
  refine ⟨?_, by decide, by decide⟩
  intro env llm pp mt
  simpa using runLoop_turnsRun_le env llm mt _ 0 0

/-! ## Claim C10 — artifact bookkeeping is not atomic with write success -/

/-- Claim C10: a `write_file` tool call whose parsed path has a basename
in the output whitelist is recorded in `files_written` before the tool
executes and irrespective of the tool's result — the recorded list depends
only on the parsed arguments, never on the dispatch outcome; consequently
a run whose only `write_file` dispatch fails with an `ERROR` textual
result still reaches Done. -/
theorem C10_artifact_recording :
    (∀ (env : Env) (st : LoopState) (tc : ToolCall) (args : JObj) (fpath : String),
      env.parseJson tc.arguments = some args →
      tc.name = "write_file" →
      jGet args "path" (.str "") = .str fpath →
      OUTPUT_FILES.contains (pathName fpath) = true →
      (processToolCall env st tc).1.files_written = st.files_written ++ [fpath])
    ∧ (∀ (env1 env2 : Env) (st : LoopState) (tc : ToolCall),
      env1.parseJson = env2.parseJson →
      (processToolCall env1 st tc).1.files_written = (processToolCall env2 st tc).1.files_written)
    ∧ ((run_agent envFailingWrites llmWriteThenStop "/p" 5).outcome = .done
       ∧ (run_agent envFailingWrites llmWriteThenStop "/p" 5).state.files_written = ["/p/deploy.sh"]
       ∧ ((run_agent envFailingWrites llmWriteThenStop "/p" 5).state.messages.filter
            (fun m => m.role = .tool)).map (fun m => m.content.getD "")
          = ["ERROR writing file: [Errno 13] Permission denied"]) := by
  refine ⟨?_, ?_, by decide⟩
  · intro env st tc args fpath hp hn hg ho
    have hargs : (env.parseJson tc.arguments).getD [] = args := by rw [hp]; rfl
    unfold processToolCall
    rw [hargs, hn]
    unfold recordWrite
    rw [hg]
    simp only [if_pos rfl, ho, if_true]
    cases execute_tool env "write_file" args <;> rfl
  · intro env1 env2 st tc hp
    unfold processToolCall
    rw [← hp]
    cases hr : recordWrite st tc.name ((env1.parseJson tc.arguments).getD []) with
    | error e => rfl
    | ok st1 =>
      cases execute_tool env1 tc.name ((env1.parseJson tc.arguments).getD []) <;>
        cases execute_tool env2 tc.name ((env1.parseJson tc.arguments).getD []) <;> rfl

/-- Claim C10 witness: the recording equation at a concrete `write_file`
call whose arguments parse to the whitelisted basename `Dockerfile`. -/
theorem C10_artifact_recording_witness :
    (processToolCall scenEnv wSt ⟨"tcw", "write_file", argsDockerfile⟩).1.files_written
      = wSt.files_written ++ ["/p/Dockerfile"] :=
  C10_artifact_recording.1 scenEnv wSt ⟨"tcw", "write_file", argsDockerfile⟩
    [("path", .str "/p/Dockerfile"), ("content", .str "FROM python")] "/p/Dockerfile"
    (by rfl) rfl (by rfl) (by rfl)

/-! ## Claim C7 — secret push accumulation -/

theorem pushLine_count (env : Env) (pid : String) (acc : PushAcc) (a : String) :
    (pushLine env pid acc a).pushed.length + (pushLine env pid acc a).errors.length
      = acc.pushed.length + acc.errors.length + (if parseEnvLine a = none then 0 else 1) := by
  cases hp : parseEnvLine a with
  | none => simp [pushLine, hp]
  | some kv =>
    obtain ⟨k, v⟩ := kv
    by_cases hkv : (k = "" ∨ v = "")
    · simp [pushLine, hp, hkv, List.length_append]
      try omega
    · rcases hc : env.secretsCreate pid k v with e | r1
      · simp [pushLine, hp, hkv, hc, List.length_append]
        try omega
      · by_cases hrc : r1.returncode = 0
        · simp [pushLine, hp, hkv, hc, hrc, List.length_append]
          try omega
        · rcases ha : env.secretsAdd pid k v with e | r2
          · simp [pushLine, hp, hkv, hc, hrc, ha, List.length_append]
            try omega
          · by_cases hrc2 : r2.returncode = 0
            · simp [pushLine, hp, hkv, hc, hrc, ha, hrc2, List.length_append]
              try omega
            · simp [pushLine, hp, hkv, hc, hrc, ha, hrc2, List.length_append]
              try omega

theorem pushFold_count (env : Env) (pid : String) :
    ∀ (lines : List String) (acc : PushAcc),
    ((lines.foldl (pushLine env pid) acc).pushed.length
      + (lines.foldl (pushLine env pid) acc).errors.length)
      = acc.pushed.length + acc.errors.length + (lines.filterMap parseEnvLine).length := by
  intro lines
  induction lines with
  | nil => intro acc; simp
  | cons a rest ih =>
    intro acc
    have h1 := pushLine_count env pid acc a
    have h2 := ih (pushLine env pid acc a)
    cases hp : parseEnvLine a with
    | none =>
      rw [hp] at h1
      rw [if_pos rfl] at h1
      simp only [List.foldl_cons, List.filterMap_cons, hp]
      omega
    | some kv =>
      rw [hp] at h1
      rw [if_neg (by simp)] at h1
      simp only [List.foldl_cons, List.filterMap_cons, hp, List.length_cons]
      omega

set_option maxRecDepth 10000 in
/-- Claim C7: `push_secrets` on a file containing `A=1`, `B=` (empty),
`# comment`, `C=3` pushes exactly A and C, reports B as skipped for its
empty value, and returns a reference string mapping only A and C to
latest-version references (`A=A:latest,C=C:latest`); per-key failures
never abort processing early — the per-line fold visits every line
(`foldl` over an append decomposes sequentially), each processed line
contributes exactly one pushed key or one reported error/skip, and a file
whose first key is rejected by the store still gets its second key pushed
with the failure reported alongside. -/
theorem C7_push_scenario :
    (push_secrets envSecretsABC "/p/.env.anchor" "proj" =
      "Pushed: A, C\nErrors: SKIPPED B: empty value — fill it in and re-run\nFile kept at: /p/.env.anchor (already in .gcloudignore and .gitignore — never committed or deployed)\nUse in gcloud run deploy: --set-secrets=A=A:latest,C=C:latest")
    ∧ (pushOutcome envSecretsABC "proj" ["A=1", "B=", "# comment", "C=3"] =
        ⟨["A", "C"], ["SKIPPED B: empty value — fill it in and re-run"]⟩)
    ∧ (∀ (env : Env) (pid : String) (acc : PushAcc) (l1 l2 : List String),
        (l1 ++ l2).foldl (pushLine env pid) acc = l2.foldl (pushLine env pid) (l1.foldl (pushLine env pid) acc))
    ∧ (∀ (env : Env) (pid : String) (lines : List String),
        (pushOutcome env pid lines).pushed.length + (pushOutcome env pid lines).errors.length
          = (lines.filterMap parseEnvLine).length)
    ∧ (push_secrets envSecretsMixed "/p/.env.anchor" "proj" =
        "Pushed: Y\nErrors: ERROR on X: boom\nFile kept at: /p/.env.anchor (already in .gcloudignore and .gitignore — never committed or deployed)\nUse in gcloud run deploy: --set-secrets=Y=Y:latest") := by
  refine ⟨by decide, by decide, ?_, ?_, by decide⟩
  · intro env pid acc l1 l2
    exact List.foldl_append _ _ _ _
  · intro env pid lines
    simpa using pushFold_count env pid lines ⟨[], []⟩

/-! ## Claim C8 — truncated read -/

theorem take_append_left : ∀ (n : Nat) (l1 l2 : List Char), n ≤ l1.length →
    (l1 ++ l2).take n = l1.take n := by
  intro n
  induction n with
  | zero => intro l1 l2 h; simp
  | succ n ih =>
    intro l1 l2 h
    cases l1 with
    | nil => simp at h
    | cons a l1 =>
      simp only [List.cons_append, List.take_succ_cons]
      rw [ih l1 l2 (by simp only [List.length_cons] at h; omega)]

theorem read_file_truncated (env : Env) (path : String) (n : Nat) (t : String)
    (h1 : env.pathExists path = true) (h2 : env.isFile path = true)
    (h3 : SKIP_EXTENSIONS.contains (pySuffix (pathName path)) = false)
    (h4 : env.statSize path = .ok n) (h5 : n > MAX_FILE_BYTES)
    (h6 : env.readText path = .ok t) :
    read_file env path = .ok (truncHeader n ++ pySlice t MAX_FILE_BYTES) := by
  unfold read_file
  rw [h1, h2, h3, h4]
  simp [h5, h6]

/-- Claim C8 counterexample: the truncation threshold is NOT a bound on the
bytes of file content returned.  A 70,000-byte UTF-8 file consisting of
35,000 two-byte characters (`statSize` reports the true byte length of the
text, as `utf8Len` computes it) exceeds the 60,000-byte threshold, so
`read_file` takes the `TRUNCATED` branch — but the character slice
`[:60000]` keeps all 35,000 characters, so the result carries all 70,000
bytes of file content, refuting "contains at most the configured byte
threshold of file content (the first N bytes, decoded permissively)". -/
theorem C8_counterexample :
    charUtf8Size 'é' = 2
    ∧ utf8Len eAcute35000 = 70000
    ∧ envTwoByteFile.statSize "/f.txt" = .ok (utf8Len eAcute35000)
    ∧ read_file envTwoByteFile "/f.txt" = .ok (truncHeader 70000 ++ eAcute35000)
    ∧ utf8Len eAcute35000 > MAX_FILE_BYTES := by
  have hsize : utf8Len eAcute35000 = 70000 := by
    unfold utf8Len eAcute35000
    rw [List.map_replicate]
    rw [show charUtf8Size 'é' = 2 from by decide]
    rw [List.sum_replicate]
    rfl
  have htake : pySlice eAcute35000 MAX_FILE_BYTES = eAcute35000 := by
    unfold pySlice eAcute35000
    refine congrArg String.mk (List.take_of_length_le ?_)
    rw [List.length_replicate]
    decide
  have hread := read_file_truncated envTwoByteFile "/f.txt" 70000 eAcute35000
    rfl rfl (by decide) rfl (by decide) rfl
  rw [htake] at hread
  refine ⟨by decide, hsize, by rw [hsize]; rfl, hread, by rw [hsize]; decide⟩

/-- Claim C8 (amended): `read_file` on a file whose stat size exceeds the
60,000 threshold returns a result that begins with `TRUNCATED:` and whose
content part is the first 60,000 CHARACTERS of the permissively decoded
text — a prefix of the decoded content, of length at most the threshold in
characters (the code slices the decoded string, so for multi-byte content
the bytes of file content returned can exceed the byte threshold, per the
counterexample; the source's own banner says "chars"). -/
theorem C8_truncated_read (env : Env) (path : String) (n : Nat) (t : String)
    (h1 : env.pathExists path = true) (h2 : env.isFile path = true)
    (h3 : SKIP_EXTENSIONS.contains (pySuffix (pathName path)) = false)
    (h4 : env.statSize path = .ok n) (h5 : n > MAX_FILE_BYTES)
    (h6 : env.readText path = .ok t) :
    read_file env path = .ok (truncHeader n ++ pySlice t MAX_FILE_BYTES)
    ∧ (truncHeader n ++ pySlice t MAX_FILE_BYTES).data.take 10 = "TRUNCATED:".data
    ∧ (pySlice t MAX_FILE_BYTES).length ≤ MAX_FILE_BYTES
    ∧ pySlice t MAX_FILE_BYTES ++ (⟨t.data.drop MAX_FILE_BYTES⟩ : String) = t := by
  refine ⟨?_, ?_, ?_, ?_⟩
  · exact read_file_truncated env path n t h1 h2 h3 h4 h5 h6
  · unfold truncHeader
    simp only [strDataAppend, List.append_assoc]
    rw [take_append_left 10 ("TRUNCATED: File too large (".data) _ (by decide)]
    decide
  · exact List.length_take_le _ _
  · exact congrArg String.mk (List.take_append_drop MAX_FILE_BYTES t.data)

/-- Claim C8 witness: reading a 70,000-byte file returns the `TRUNCATED`
banner plus the (at most 60,000-character) decoded prefix. -/
theorem C8_truncated_read_witness :
    read_file envBigFile "/big.txt" = .ok (truncHeader 70000 ++ pySlice "hello world" MAX_FILE_BYTES)
    ∧ (truncHeader 70000 ++ pySlice "hello world" MAX_FILE_BYTES).data.take 10 = "TRUNCATED:".data := by
  have h := C8_truncated_read envBigFile "/big.txt" 70000 "hello world" rfl rfl (by decide) rfl
    (by decide) rfl
  exact ⟨h.1, h.2.1⟩

/-! ## Claim C9 — directory-listing filters -/

/-- Claim C9 counterexample: in non-recursive mode `list_directory` applies
neither the extension filter nor the dot-file filter — a `.pyc` file and a
disallowed dot-file are both listed — contradicting "excludes entries with
a configured skipped file extension, and excludes dot-file entries except
a small allow-list, in both recursive and non-recursive mode". -/
theorem C9_counterexample :
    SKIP_EXTENSIONS.contains (pySuffix "a.pyc") = true
    ∧ strStartsWith ".secret" "." = true
    ∧ DOT_ALLOWED.contains ".secret" = false
    ∧ list_directory envMixedDir "/d" false = .ok "FILE  .secret\nFILE  a.pyc" := by
  refine ⟨by decide, by decide, by decide, by rfl⟩

/-- Claim C9 (amended): the RECURSIVE mode excludes every entry whose path
contains a skip-directory component, every entry with a skipped extension,
and every dot-file outside the allow-list; the NON-recursive mode filters
only on the entry's own name being a skip-directory name (no extension or
dot-file filtering), never consults the recursive enumeration (so it never
descends into subdirectories — every listed line is a direct `iterdir`
child), and `"(empty)"` is returned when nothing passes the filter. -/
theorem list_directory_rec (env : Env) (path : String) (items : List DirEntry)
    (he : env.pathExists path = true) (hd : env.isDir path = true)
    (hg : env.rglob path = .ok items) :
    list_directory env path true = .ok (joinOrEmpty ((items.filter recKeep).map
      (fun item => fmtKind item.isDir ++ "  " ++ relDisplay path item))) := by
  unfold list_directory
  simp [he, hd, hg]

theorem list_directory_flat (env : Env) (path : String) (items : List DirEntry)
    (he : env.pathExists path = true) (hd : env.isDir path = true)
    (hg : env.iterdir path = .ok items) :
    list_directory env path false = .ok (joinOrEmpty ((items.filter
      (fun item => !SKIP_DIRS.contains item.name)).map
      (fun item => fmtKind item.isDir ++ "  " ++ item.name))) := by
  unfold list_directory
  simp [he, hd, hg]

/-- Claim C9 (amended): the RECURSIVE mode excludes every entry whose path
contains a skip-directory component, every entry with a skipped extension,
and every dot-file outside the allow-list; the NON-recursive mode filters
only on the entry's own name being a skip-directory name (no extension or
dot-file filtering), never consults the recursive enumeration (so it never
descends into subdirectories — every listed line is a direct `iterdir`
child), and `"(empty)"` is returned when nothing passes the filter. -/
theorem C9_listing_filters :
    (∀ (env : Env) (path : String) (items : List DirEntry),
      env.pathExists path = true → env.isDir path = true → env.rglob path = .ok items →
      list_directory env path true = .ok (joinOrEmpty ((items.filter recKeep).map
        (fun item => fmtKind item.isDir ++ "  " ++ relDisplay path item))))
    ∧ (∀ item : DirEntry, recKeep item = true ↔
        (item.parts.any (fun part => SKIP_DIRS.contains part) = false
         ∧ (strStartsWith item.name "." = true → DOT_ALLOWED.contains item.name = true)
         ∧ SKIP_EXTENSIONS.contains (pySuffix item.name) = false))
    ∧ (∀ (env : Env) (path : String) (items : List DirEntry),
      env.pathExists path = true → env.isDir path = true → env.iterdir path = .ok items →
      list_directory env path false = .ok (joinOrEmpty ((items.filter
        (fun item => !SKIP_DIRS.contains item.name)).map
        (fun item => fmtKind item.isDir ++ "  " ++ item.name))))
    ∧ (∀ (env : Env) (g : String → Except String (List DirEntry)) (path : String),
      list_directory { env with rglob := g } path false = list_directory env path false)
    ∧ (∀ (env : Env) (path : String) (items : List DirEntry),
      env.pathExists path = true → env.isDir path = true → env.iterdir path = .ok items →
      items.filter (fun item => !SKIP_DIRS.contains item.name) = [] →
      list_directory env path false = .ok "(empty)")
    ∧ (list_directory envMixedDir "/d" true = .ok "FILE  src/app.py") := by
  refine ⟨?_, ?_, ?_, ?_, ?_, by rfl⟩
  · intro env path items he hd hg
    exact list_directory_rec env path items he hd hg
  · intro item
    unfold recKeep
    cases hA : item.parts.any (fun part => SKIP_DIRS.contains part) <;>
      cases hB : strStartsWith item.name "." <;>
        cases hC : DOT_ALLOWED.contains item.name <;>
          cases hD : SKIP_EXTENSIONS.contains (pySuffix item.name) <;>
            simp [hA, hB, hC, hD]
  · intro env path items he hd hg
    exact list_directory_flat env path items he hd hg
  · intro env g path
    rfl
  · intro env path items he hd hg hf
    rw [list_directory_flat env path items he hd hg, hf]
    rfl

/-- Claim C9 witness: the amended non-recursive characterization applied to
the concrete mixed directory. -/
theorem C9_listing_filters_witness :
    list_directory envMixedDir "/d" false = .ok (joinOrEmpty
      ((mixedChildren.filter (fun item => !SKIP_DIRS.contains item.name)).map
        (fun item => fmtKind item.isDir ++ "  " ++ item.name))) :=
  C9_listing_filters.2.2.1 envMixedDir "/d" mixedChildren rfl rfl rfl

/-! ## Claim C1 — the secret trust boundary -/

theorem pushLine_shape_eq (env : Env) (pid : String) (hv : ValueBlind env)
    (acc : PushAcc) (a b : String) (hs : lineShape a = lineShape b) :
    pushLine env pid acc a = pushLine env pid acc b := by
  unfold lineShape at hs
  unfold pushLine
  cases hpa : parseEnvLine a with
  | none =>
    cases hpb : parseEnvLine b with
    | none => rfl
    | some kvb => rw [hpa, hpb] at hs; simp at hs
  | some kva =>
    cases hpb : parseEnvLine b with
    | none => rw [hpa, hpb] at hs; simp at hs
    | some kvb =>
      rw [hpa, hpb] at hs
      obtain ⟨k1, v1⟩ := kva
      obtain ⟨k2, v2⟩ := kvb
      have hs2 : (k1, decide (v1 = "")) = (k2, decide (v2 = "")) := Option.some.inj hs
      have hk : k1 = k2 := congrArg Prod.fst hs2
      have he : decide (v1 = "") = decide (v2 = "") := congrArg Prod.snd hs2
      subst hk
      have hiff : (v1 = "") ↔ (v2 = "") := by simpa using he
      by_cases hv1 : v1 = ""
      · have hv2 : v2 = "" := hiff.mp hv1
        simp [hv1, hv2]
      · have hv2 : ¬ v2 = "" := fun h => hv1 (hiff.mpr h)
        simp [hv1, hv2, hv.1 pid k1 v1 v2, hv.2 pid k1 v1 v2]

theorem pushFold_shape_eq (env : Env) (pid : String) (hv : ValueBlind env) :
    ∀ (l1 l2 : List String) (acc : PushAcc),
    l1.map lineShape = l2.map lineShape →
    l1.foldl (pushLine env pid) acc = l2.foldl (pushLine env pid) acc := by
  intro l1
  induction l1 with
  | nil =>
    intro l2 acc h
    cases l2 with
    | nil => rfl
    | cons b bs => simp at h
  | cons a as ih =>
    intro l2 acc h
    cases l2 with
    | nil => simp at h
    | cons b bs =>
      simp only [List.map_cons, List.cons.injEq] at h
      obtain ⟨hab, ht⟩ := h
      simp only [List.foldl_cons]
      rw [pushLine_shape_eq env pid hv acc a b hab]
      exact ih bs (pushLine env pid acc b) ht

set_option maxRecDepth 10000 in
/-- Claim C1 counterexample: the code does not enforce the trust boundary
against the model re-reading the secrets file — in a run where
`push_secrets` processes `/p/.env.anchor` (whose one non-empty entry is
`PASSWORD=hunter2xyz`, so `hunter2xyz` is a secret value of that run) and
the model then issues `read_file` on the same path, the secret value
appears verbatim as a substring of a `Message.content` in the final
conversation. -/
theorem C1_counterexample :
    parseEnvLine "PASSWORD=hunter2xyz" = some ("PASSWORD", "hunter2xyz")
    ∧ (run_agent scenEnv llmLeak "/p" 2).state.messages.any
        (fun m => m.role = .tool && m.content = some (push_secrets scenEnv "/p/.env.anchor" "proj")) = true
    ∧ (run_agent scenEnv llmLeak "/p" 2).state.messages.any
        (fun m => pyIn "hunter2xyz" (m.content.getD "")) = true := by
  refine ⟨by decide, by decide, by decide⟩

theorem pushOutcome_shape_eq (env : Env) (pid : String) (hv : ValueBlind env)
    (l1 l2 : List String) (h : l1.map lineShape = l2.map lineShape) :
    pushOutcome env pid l1 = pushOutcome env pid l2 :=
  pushFold_shape_eq env pid hv l1 l2 ⟨[], []⟩ h

/-- Claim C1 (amended): `push_secrets` itself never places a secret value
into the text it returns to the conversation — its report is a function of
the key names, the per-line value-emptiness pattern, the file path and the
external store's responses only.  Formally: with value-blind store calls,
any two secrets files with the same line shapes (same keys, same emptiness)
yield identical per-line outcomes and identical reports, whatever their
values; so the report contains key names and `:latest` references, and can
contain a secret value only when the value textually coincides with that
value-independent text.  (The run-level "never appears in any
Message.content" claim fails through other tools — see the
counterexample.) -/
theorem C1_value_noninterference :
    (∀ (env : Env) (pid : String) (lines1 lines2 : List String),
      ValueBlind env → lines1.map lineShape = lines2.map lineShape →
      pushOutcome env pid lines1 = pushOutcome env pid lines2)
    ∧ (∀ (env1 env2 : Env) (f pid t1 t2 : String),
      ValueBlind env1 →
      env1.pathExists = env2.pathExists →
      env1.secretsCreate = env2.secretsCreate →
      env1.secretsAdd = env2.secretsAdd →
      env1.readTextStrict f = .ok t1 → env2.readTextStrict f = .ok t2 →
      (pySplitlines t1).map lineShape = (pySplitlines t2).map lineShape →
      push_secrets env1 f pid = push_secrets env2 f pid) := by
  constructor
  · intro env pid l1 l2 hv h
    exact pushOutcome_shape_eq env pid hv l1 l2 h
  · intro env1 env2 f pid t1 t2 hv hpe hc ha h1 h2 hsh
    unfold push_secrets
    rw [← hpe]
    by_cases hex : env1.pathExists f = true
    · simp only [hex, Bool.not_true, Bool.false_eq_true, if_false]
      rw [h1, h2]
      have hfn : pushLine env2 pid = pushLine env1 pid := by
        funext acc line
        unfold pushLine
        rw [hc, ha]
      have hfold : pushOutcome env2 pid (pySplitlines t2) = pushOutcome env1 pid (pySplitlines t2) := by
        unfold pushOutcome
        rw [hfn]
      show pushReport f (pushOutcome env1 pid (pySplitlines t1))
          = pushReport f (pushOutcome env2 pid (pySplitlines t2))
      rw [hfold, pushOutcome_shape_eq env1 pid hv _ _ hsh]
    · simp only [Bool.not_eq_true] at hex
      simp [hex]

/-- Claim C1 witness: two one-line secrets files with the same key but
different values produce identical push outcomes. -/
theorem C1_value_noninterference_witness :
    pushOutcome scenEnv "proj" ["PASSWORD=hunter2xyz"] = pushOutcome scenEnv "proj" ["PASSWORD=zzz"] :=
  C1_value_noninterference.1 scenEnv "proj" ["PASSWORD=hunter2xyz"] ["PASSWORD=zzz"]
    ⟨fun _ _ _ _ => rfl, fun _ _ _ _ => rfl⟩ (by decide)

end Anchor
